import Mathlib

/-!
Verification development for the web-extraction-agent core
(`src/web_extraction_agent/main.py`): a shallow embedding of the
credential resolver, capability builder, agent assembly, lifecycle guard
and invocation dispatcher, together with theorems settling the spec's
claims about them.

External collaborators (the OpenRouter model constructor, the
ExaTools/FirecrawlTools/Mem0Tools tool constructors, the Agent
constructor, and the agent-run operation `agent.arun`) are modelled as
parameters: a `Collab` record says which constructors throw, and the
agent-run operation is an arbitrary function argument.  The long fixed
description/instructions prompt strings bound into the Agent are static
configuration text never inspected by the core; the embedding elides
them and keeps the structural fields the code sets.
-/

/-- Python truthiness of an optional string (`os.getenv` result):
`None` and the empty string are falsy, everything else truthy. -/
def truthy : Option String → Bool
  | none => false
  | some s => s != ""

/-- Snapshot of the process environment variables the module reads. -/
structure Env where
  openrouter_api_key : Option String
  mem0_api_key : Option String
  exa_api_key : Option String
  firecrawl_api_key : Option String
  model_name : Option String
  enable_firecrawl : Option String
deriving DecidableEq

/-- Python exceptions that can cross the module's boundaries.
`apiKeyError` embeds `APIKeyError(ValueError)`, `runtimeError` the
`RuntimeError` raised by `run_agent`, and `otherError` any other
collaborator exception (identified by its message). -/
inductive PyError
  | apiKeyError (msg : String)
  | runtimeError (msg : String)
  | otherError (msg : String)
deriving DecidableEq

/-- Behaviour of the external constructor collaborators: for each one,
`some e` means its call raises exception `e`, `none` means it returns
normally. -/
structure Collab where
  modelFails : Option PyError
  exaFails : Option PyError
  firecrawlFails : Option PyError
  mem0Fails : Option PyError
  agentFails : Option PyError
deriving DecidableEq

/-- The OpenRouter model handle as configured by `_create_llm_model`. -/
structure OpenRouter where
  id : String
  api_key : String
  cache_response : Bool
  supports_native_structured_outputs : Bool
deriving DecidableEq

/-- A tool capability as appended to the tool list by `_setup_tools`. -/
inductive Tool
  | exaTools (api_key : String)
  | firecrawlTools (api_key : String) (enable_scrape enable_crawl : Bool)
  | mem0Tools (api_key : String)
deriving DecidableEq

/-- The agent record assembled by `initialize_agent` (fixed prompt text
elided; structural fields kept). -/
structure Agent where
  name : String
  model : OpenRouter
  tools : List Tool
  structured_outputs : Bool
  add_datetime_to_context : Bool
  markdown : Bool
deriving DecidableEq

/-- Error message raised when `OPENROUTER_API_KEY` is missing (used both
by `_create_llm_model` and by the check in `initialize_agent`). -/
def openrouterKeyMsg : String :=
  "OpenRouter API key is required. Set OPENROUTER_API_KEY environment variable.\nGet an API key from: https://openrouter.ai/keys"

/-- Error message raised by `_setup_tools` when `EXA_API_KEY` is missing. -/
def exaKeyMsg : String :=
  "Exa API key is required. Set EXA_API_KEY environment variable.\nGet an API key from: https://exa.ai"

/-- Error message raised by the `EXA_API_KEY` check in `initialize_agent`. -/
def exaKeyMsgInit : String :=
  "Exa API key is required for web content extraction. Set EXA_API_KEY environment variable.\nGet an API key from: https://exa.ai"

/-- Embedding of `_get_api_keys`: reads the five configuration values,
defaulting the model name to `openai/gpt-4o` when the variable is unset. -/
def _get_api_keys (env : Env) :
    Option String × Option String × Option String × Option String × String :=
  (env.openrouter_api_key, env.mem0_api_key, env.exa_api_key,
    env.firecrawl_api_key, env.model_name.getD "openai/gpt-4o")

/-- Embedding of `_create_llm_model`: raises `APIKeyError` when the
OpenRouter key is falsy, otherwise calls the OpenRouter constructor
(collaborator) with caching and native structured outputs enabled. -/
def _create_llm_model (openrouter_api_key : Option String) (model_name : String)
    (c : Collab) : Except PyError OpenRouter :=
  if truthy openrouter_api_key = false then
    .error (.apiKeyError openrouterKeyMsg)
  else
    match c.modelFails with
    | some e => .error e
    | none =>
        .ok { id := model_name, api_key := openrouter_api_key.getD "",
              cache_response := true, supports_native_structured_outputs := true }

/-- Python `str.lower()` as a character map (kernel-reducible version of
`String.toLower`; the flag values compared against are ASCII). -/
def lowerString (s : String) : String := String.mk (s.data.map Char.toLower)

/-- Embedding of the `ENABLE_FIRECRAWL` flag read inside `_setup_tools`:
`os.getenv("ENABLE_FIRECRAWL", "true").lower() in ("true", "1", "yes")`. -/
def enableFirecrawl (env : Env) : Bool :=
  let v := lowerString (env.enable_firecrawl.getD "true")
  v == "true" || v == "1" || v == "yes"

/-- Embedding of `_setup_tools`: Exa is mandatory (missing key raises
`APIKeyError`, constructor exceptions re-raise); Firecrawl is appended
only when the flag is enabled and its key truthy, with constructor
exceptions swallowed; Mem0 is appended only when its key is truthy, with
constructor exceptions swallowed. -/
def _setup_tools (mem0_api_key exa_api_key firecrawl_api_key : Option String)
    (env : Env) (c : Collab) : Except PyError (List Tool) :=
  if truthy exa_api_key = false then
    .error (.apiKeyError exaKeyMsg)
  else
    match c.exaFails with
    | some e => .error e
    | none =>
        let tools : List Tool := [Tool.exaTools (exa_api_key.getD "")]
        let tools :=
          if enableFirecrawl env && truthy firecrawl_api_key then
            match c.firecrawlFails with
            | some _ => tools
            | none => tools ++ [Tool.firecrawlTools (firecrawl_api_key.getD "") true true]
          else tools
        let tools :=
          if truthy mem0_api_key then
            match c.mem0Fails with
            | some _ => tools
            | none => tools ++ [Tool.mem0Tools (mem0_api_key.getD "")]
          else tools
        .ok tools

/-- Agent assembly: the `Agent(...)` call at the end of `initialize_agent`
with its fixed structural settings. -/
def mkAgent (model : OpenRouter) (tools : List Tool) : Agent :=
  { name := "Web Extraction Assistant", model := model, tools := tools,
    structured_outputs := true, add_datetime_to_context := true, markdown := false }

/-- Embedding of `initialize_agent`: resolves configuration, validates the
two required keys, builds the model, builds the tools, then assembles the
agent (the Agent constructor is a collaborator and may throw).  The
returned agent is the value the Python code assigns to the global
`agent`; on any error nothing is assigned. -/
def initialize_agent (env : Env) (c : Collab) : Except PyError Agent :=
  match _get_api_keys env with
  | (openrouter_api_key, mem0_api_key, exa_api_key, firecrawl_api_key, model_name) =>
    if truthy openrouter_api_key = false then
      .error (.apiKeyError openrouterKeyMsg)
    else if truthy exa_api_key = false then
      .error (.apiKeyError exaKeyMsgInit)
    else
      match _create_llm_model openrouter_api_key model_name c with
      | .error e => .error e
      | .ok model =>
          match _setup_tools mem0_api_key exa_api_key firecrawl_api_key env c with
          | .error e => .error e
          | .ok tools =>
              match c.agentFails with
              | some e => .error e
              | none => .ok (mkAgent model tools)

/-- The module-level mutable state: the global `agent` and `_initialized`. -/
structure GState where
  agent : Option Agent
  initialized : Bool
deriving DecidableEq

/-- Embedding of `run_agent`: raises `RuntimeError` when no agent exists,
otherwise calls the agent-run collaborator `arun` on the agent and the
messages and returns its result.  The second component logs every call
made to the collaborator, as (agent, messages) pairs. -/
def run_agent {M R : Type} (arun : Agent → M → R) (st : GState) (messages : M) :
    Except PyError R × List (Agent × M) :=
  match st.agent with
  | none => (.error (.runtimeError "Agent not initialized"), [])
  | some a => (.ok (arun a messages), [(a, messages)])

/-- Observable events of one `handler` invocation, in order. -/
inductive Event
  | lockAcquired
  | flagChecked (value : Bool)
  | initCalled
  | flagSet
  | lockReleased
  | runAgentCalled
deriving DecidableEq

/-- Result of one `handler` invocation: the returned-or-raised value, the
module state afterwards, the ordered event trace, and the log of calls
made to the agent-run collaborator. -/
structure HResult (M R : Type) where
  result : Except PyError R
  state : GState
  events : List Event
  aruns : List (Agent × M)

/-- Embedding of `handler`: acquire the init lock, check `_initialized`
under the lock, initialize and set the flag if unset (errors propagate
and leave the state untouched), release the lock, then call `run_agent`. -/
def handler {M R : Type} (arun : Agent → M → R) (env : Env) (c : Collab)
    (st : GState) (messages : M) : HResult M R :=
  if st.initialized then
    let out := run_agent arun st messages
    { result := out.1, state := st,
      events := [.lockAcquired, .flagChecked true, .lockReleased, .runAgentCalled],
      aruns := out.2 }
  else
    match initialize_agent env c with
    | .error e =>
        { result := .error e, state := st,
          events := [.lockAcquired, .flagChecked false, .initCalled, .lockReleased],
          aruns := [] }
    | .ok a =>
        let st2 : GState := { agent := some a, initialized := true }
        let out := run_agent arun st2 messages
        { result := out.1, state := st2,
          events := [.lockAcquired, .flagChecked false, .initCalled, .flagSet,
                     .lockReleased, .runAgentCalled],
          aruns := out.2 }

/-- A result is an `APIKeyError` with some message. -/
def isAPIKeyErrorResult {α : Type} : Except PyError α → Bool
  | .error (.apiKeyError _) => true
  | _ => false

/-- Tail shapes allowed after the mandatory Search tool: nothing, Scrape,
Memory, or Scrape then Memory. -/
def scrapeMemTail : List Tool → Bool
  | [] => true
  | [Tool.firecrawlTools _ _ _] => true
  | [Tool.mem0Tools _] => true
  | [Tool.firecrawlTools _ _ _, Tool.mem0Tools _] => true
  | _ => false

/-- A tool list is well ordered when it is Search first, then optionally
Scrape, then optionally Memory. -/
def wellOrderedTools : List Tool → Bool
  | Tool.exaTools _ :: rest => scrapeMemTail rest
  | _ => false

/-- Program counter of one logical `handler` invocation in the
interleaving model of the lifecycle guard: waiting to acquire the lock,
holding the lock about to check the flag, running `initialize_agent`
under the lock, about to release the lock, released and dispatched to
`run_agent`, or terminated by a construction error. -/
inductive PC
  | start
  | inLock
  | building
  | releasing
  | dispatched
  | failed
deriving DecidableEq

/-- Shared state of `nthreads` concurrent `handler` invocations racing on
`_init_lock`: each thread's program counter, the lock holder, the
`_initialized` flag, and a count of how many times the construction
sequence (`initialize_agent`) has executed. -/
structure CState where
  nthreads : Nat
  pcs : Nat → PC
  lockHolder : Option Nat
  initialized : Bool
  constructions : Nat

/-- One interleaving step of the lifecycle guard: any thread may acquire
the free lock; the holder checks the flag under the lock, runs
`initialize_agent` when the flag is unset (success sets the flag, failure
propagates and releases the lock with the flag still unset), and releases
the lock before dispatching. -/
inductive Step (env : Env) (c : Collab) : CState → CState → Prop
  | acquire (s : CState) (i : Nat) :
      i < s.nthreads → s.pcs i = PC.start → s.lockHolder = none →
      Step env c s { s with pcs := Function.update s.pcs i PC.inLock,
                            lockHolder := some i }
  | checkReady (s : CState) (i : Nat) :
      i < s.nthreads → s.pcs i = PC.inLock → s.lockHolder = some i →
      s.initialized = true →
      Step env c s { s with pcs := Function.update s.pcs i PC.releasing }
  | checkNotReady (s : CState) (i : Nat) :
      i < s.nthreads → s.pcs i = PC.inLock → s.lockHolder = some i →
      s.initialized = false →
      Step env c s { s with pcs := Function.update s.pcs i PC.building }
  | buildOk (s : CState) (i : Nat) (a : Agent) :
      i < s.nthreads → s.pcs i = PC.building → s.lockHolder = some i →
      initialize_agent env c = Except.ok a →
      Step env c s { s with pcs := Function.update s.pcs i PC.releasing,
                            initialized := true,
                            constructions := s.constructions + 1 }
  | buildFail (s : CState) (i : Nat) (e : PyError) :
      i < s.nthreads → s.pcs i = PC.building → s.lockHolder = some i →
      initialize_agent env c = Except.error e →
      Step env c s { s with pcs := Function.update s.pcs i PC.failed,
                            lockHolder := none,
                            constructions := s.constructions + 1 }
  | release (s : CState) (i : Nat) :
      i < s.nthreads → s.pcs i = PC.releasing → s.lockHolder = some i →
      Step env c s { s with pcs := Function.update s.pcs i PC.dispatched,
                            lockHolder := none }

/-- Initial shared state for `n` concurrent first invocations: every
thread waiting on the lock, lock free, flag unset, nothing constructed. -/
def initCState (n : Nat) : CState :=
  { nthreads := n, pcs := fun _ => PC.start, lockHolder := none,
    initialized := false, constructions := 0 }

/-- Lifecycle-guard invariant: the construction count tracks the flag;
every thread inside the critical section holds the lock; a builder sees
the flag unset; a thread at or past release has seen the flag set. -/
def LgInv (s : CState) : Prop :=
  (s.constructions = if s.initialized then 1 else 0) ∧
  (∀ i, s.pcs i = PC.inLock ∨ s.pcs i = PC.building ∨ s.pcs i = PC.releasing →
    s.lockHolder = some i) ∧
  (∀ i, s.pcs i = PC.building → s.initialized = false) ∧
  (∀ i, s.pcs i = PC.releasing ∨ s.pcs i = PC.dispatched → s.initialized = true)

theorem lgInv_init (n : Nat) : LgInv (initCState n) := by
  refine ⟨rfl, ?_, ?_, ?_⟩ <;> intro i h <;> simp [initCState] at h

theorem lgInv_step {env : Env} {c : Collab} {a0 : Agent}
    (hok : initialize_agent env c = Except.ok a0)
    {s s2 : CState} (hst : Step env c s s2) (hinv : LgInv s) : LgInv s2 := by
  obtain ⟨h1, h2, h3, h4⟩ := hinv
  cases hst with
  | acquire i hn hpc hl =>
      refine ⟨h1, ?_, ?_, ?_⟩
      · intro j hj
        by_cases hji : j = i
        · simp [hji]
        · simp only [Function.update_apply, hji, if_false] at hj
          exact absurd (h2 j hj) (by simp [hl])
      · intro j hj
        by_cases hji : j = i
        · subst hji; simp [Function.update_apply] at hj
        · simp only [Function.update_apply, hji, if_false] at hj
          exact h3 j hj
      · intro j hj
        by_cases hji : j = i
        · subst hji; simp [Function.update_apply] at hj
        · simp only [Function.update_apply, hji, if_false] at hj
          exact h4 j hj
  | checkReady i hn hpc hl hflag =>
      refine ⟨h1, ?_, ?_, ?_⟩
      · intro j hj
        by_cases hji : j = i
        · subst hji; exact hl
        · simp only [Function.update_apply, hji, if_false] at hj
          exact h2 j hj
      · intro j hj
        by_cases hji : j = i
        · subst hji; simp [Function.update_apply] at hj
        · simp only [Function.update_apply, hji, if_false] at hj
          exact h3 j hj
      · intro _ _; exact hflag
  | checkNotReady i hn hpc hl hflag =>
      refine ⟨h1, ?_, ?_, ?_⟩
      · intro j hj
        by_cases hji : j = i
        · subst hji; exact hl
        · simp only [Function.update_apply, hji, if_false] at hj
          exact h2 j hj
      · intro _ _; exact hflag
      · intro j hj
        by_cases hji : j = i
        · subst hji; simp [Function.update_apply] at hj
        · simp only [Function.update_apply, hji, if_false] at hj
          exact h4 j hj
  | buildOk i a hn hpc hl hbuild =>
      have hflag : s.initialized = false := h3 i hpc
      refine ⟨by simp [h1, hflag], ?_, ?_, ?_⟩
      · intro j hj
        by_cases hji : j = i
        · subst hji; exact hl
        · simp only [Function.update_apply, hji, if_false] at hj
          exact h2 j hj
      · intro j hj
        by_cases hji : j = i
        · subst hji; simp [Function.update_apply] at hj
        · simp only [Function.update_apply, hji, if_false] at hj
          have hjl := h2 j (Or.inr (Or.inl hj))
          rw [hl] at hjl
          exact absurd (Option.some_injective _ hjl).symm hji
      · intro _ _; rfl
  | buildFail i e hn hpc hl hbuild =>
      rw [hok] at hbuild
      exact absurd hbuild (by simp)
  | release i hn hpc hl =>
      have hflag : s.initialized = true := h4 i (Or.inl hpc)
      refine ⟨h1, ?_, ?_, ?_⟩
      · intro j hj
        by_cases hji : j = i
        · subst hji; simp [Function.update_apply] at hj
        · simp only [Function.update_apply, hji, if_false] at hj
          have hjl := h2 j hj
          rw [hl] at hjl
          exact absurd (Option.some_injective _ hjl).symm hji
      · intro j hj
        by_cases hji : j = i
        · subst hji; simp [Function.update_apply] at hj
        · simp only [Function.update_apply, hji, if_false] at hj
          exact h3 j hj
      · intro _ _; exact hflag

theorem lgInv_reachable {env : Env} {c : Collab} {a0 : Agent}
    (hok : initialize_agent env c = Except.ok a0)
    {n : Nat} {s : CState}
    (htr : Relation.ReflTransGen (Step env c) (initCState n) s) : LgInv s := by
  induction htr with
  | refl => exact lgInv_init n
  | tail _ hstep ih => exact lgInv_step hok hstep ih

theorem init_err_no_openrouter (env : Env) (c : Collab)
    (hor : truthy env.openrouter_api_key = false) :
    initialize_agent env c = .error (.apiKeyError openrouterKeyMsg) := by
  simp [initialize_agent, _get_api_keys, hor]

theorem initialize_agent_ok_of_valid (env : Env) (c : Collab)
    (hor : truthy env.openrouter_api_key = true)
    (hexa : truthy env.exa_api_key = true)
    (hm : c.modelFails = none) (he : c.exaFails = none) (ha : c.agentFails = none) :
    ∃ a, initialize_agent env c = Except.ok a := by
  simp only [initialize_agent, _get_api_keys, _create_llm_model, _setup_tools,
    hor, hexa, hm, he, ha]
  simp only [Bool.true_eq_false, if_false]
  split <;> split <;> exact ⟨_, rfl⟩

/-- C2: if the LLM credential `OPENROUTER_API_KEY` is absent, every
`handler` call from a not-yet-Ready state fails with `APIKeyError`, no
call to the agent-run collaborator occurs, and the state stays not Ready. -/
theorem handler_fails_without_llm_credential {M R : Type} (arun : Agent → M → R)
    (env : Env) (c : Collab) (st : GState) (messages : M)
    (hor : truthy env.openrouter_api_key = false)
    (hst : st.initialized = false) :
    (handler arun env c st messages).result = .error (.apiKeyError openrouterKeyMsg) ∧
    (handler arun env c st messages).aruns = [] ∧
    (handler arun env c st messages).state.initialized = false := by
  have hi := init_err_no_openrouter env c hor
  simp [handler, hst, hi]

/-- C3: every construction error escapes `handler` unmodified, the module
state (agent and flag) is left untouched so no partial agent is visible,
and a subsequent call on the resulting state re-attempts construction. -/
theorem handler_propagates_construction_errors {M R : Type} (arun : Agent → M → R)
    (env : Env) (c : Collab) (st : GState) (messages : M) (e : PyError)
    (hst : st.initialized = false)
    (herr : initialize_agent env c = .error e) :
    (handler arun env c st messages).result = .error e ∧
    (handler arun env c st messages).state = st ∧
    (∀ (env2 : Env) (c2 : Collab) (messages2 : M),
      Event.initCalled ∈
        (handler arun env2 c2 (handler arun env c st messages).state messages2).events) := by
  refine ⟨by simp [handler, hst, herr], by simp [handler, hst, herr], ?_⟩
  intro env2 c2 m2
  have h2 : (handler arun env c st messages).state = st := by simp [handler, hst, herr]
  rw [h2]
  cases hini : initialize_agent env2 c2 with
  | error e2 => simp [handler, hst, hini]
  | ok a2 => simp [handler, hst, hini]

theorem init_apikey_err_of_no_exa (env : Env) (c : Collab)
    (hexa : truthy env.exa_api_key = false) :
    ∃ m, initialize_agent env c = .error (.apiKeyError m) := by
  by_cases hor : truthy env.openrouter_api_key = true
  · exact ⟨exaKeyMsgInit, by simp [initialize_agent, _get_api_keys, hor, hexa]⟩
  · have hor2 : truthy env.openrouter_api_key = false := by simpa using hor
    exact ⟨openrouterKeyMsg, init_err_no_openrouter env c hor2⟩

/-- C5: if the search credential `EXA_API_KEY` is absent, construction
fails with `APIKeyError`, whatever the LLM credential is. -/
theorem init_fails_without_search_credential (env : Env) (c : Collab)
    (hexa : truthy env.exa_api_key = false) :
    ∃ m, initialize_agent env c = .error (.apiKeyError m) :=
  init_apikey_err_of_no_exa env c hexa

/-- C8: when an agent exists, `run_agent` forwards the messages verbatim
to the agent-run collaborator and returns its result exactly, calling it
exactly once with the given messages. -/
theorem run_agent_identity {M R : Type} (arun : Agent → M → R)
    (st : GState) (a : Agent) (messages : M)
    (ha : st.agent = some a) :
    run_agent arun st messages = (Except.ok (arun a messages), [(a, messages)]) := by
  simp [run_agent, ha]

/-- C9: when no agent exists, `run_agent` fails with
`RuntimeError "Agent not initialized"` and never calls the agent-run
collaborator. -/
theorem run_agent_not_ready {M R : Type} (arun : Agent → M → R)
    (st : GState) (messages : M)
    (ha : st.agent = none) :
    run_agent arun st messages
      = (Except.error (PyError.runtimeError "Agent not initialized"), []) := by
  simp [run_agent, ha]

deriving instance DecidableEq for Except

/-- C1: for every number n of concurrent first `handler` invocations
racing on the init lock with valid configuration (both required
credentials present, constructors succeeding), every interleaving in
which all n invocations reach dispatch has executed the construction
sequence `initialize_agent` exactly once. -/
theorem handler_construction_exactly_once (env : Env) (c : Collab) (n : Nat)
    (hor : truthy env.openrouter_api_key = true)
    (hexa : truthy env.exa_api_key = true)
    (hm : c.modelFails = none) (he : c.exaFails = none) (ha : c.agentFails = none)
    (hn : 1 ≤ n) (s : CState)
    (htr : Relation.ReflTransGen (Step env c) (initCState n) s)
    (hdone : ∀ i, i < n → s.pcs i = PC.dispatched) :
    s.constructions = 1 := by
  obtain ⟨a0, hok⟩ := initialize_agent_ok_of_valid env c hor hexa hm he ha
  obtain ⟨h1, h2x, h3x, h4⟩ := lgInv_reachable hok htr
  have hinit : s.initialized = true := h4 0 (Or.inr (hdone 0 hn))
  rw [hinit] at h1
  simpa using h1

/-- Environment with both required credentials present and all optional
settings absent, used as concrete input. -/
def env0 : Env :=
  { openrouter_api_key := some "or-key", mem0_api_key := none,
    exa_api_key := some "exa-key", firecrawl_api_key := none,
    model_name := none, enable_firecrawl := none }

/-- Collaborator behaviour in which no external constructor throws. -/
def collab0 : Collab :=
  { modelFails := none, exaFails := none, firecrawlFails := none,
    mem0Fails := none, agentFails := none }

/-- The agent built from `env0` with no collaborator failures. -/
def agent0 : Agent :=
  mkAgent
    { id := "openai/gpt-4o", api_key := "or-key", cache_response := true,
      supports_native_structured_outputs := true }
    [Tool.exaTools "exa-key"]

def c1s0 : CState := initCState 1

def c1s1 : CState :=
  { c1s0 with pcs := Function.update c1s0.pcs 0 PC.inLock, lockHolder := some 0 }

def c1s2 : CState :=
  { c1s1 with pcs := Function.update c1s1.pcs 0 PC.building }

def c1s3 : CState :=
  { c1s2 with pcs := Function.update c1s2.pcs 0 PC.releasing, initialized := true,
              constructions := c1s2.constructions + 1 }

def c1s4 : CState :=
  { c1s3 with pcs := Function.update c1s3.pcs 0 PC.dispatched, lockHolder := none }

theorem handler_construction_exactly_once_witness : c1s4.constructions = 1 := by
  have hok : initialize_agent env0 collab0 = Except.ok agent0 := by decide
  have t1 : Step env0 collab0 c1s0 c1s1 :=
    Step.acquire c1s0 0 (by decide) rfl rfl
  have t2 : Step env0 collab0 c1s1 c1s2 :=
    Step.checkNotReady c1s1 0 (by decide) rfl rfl rfl
  have t3 : Step env0 collab0 c1s2 c1s3 :=
    Step.buildOk c1s2 0 agent0 (by decide) rfl rfl hok
  have t4 : Step env0 collab0 c1s3 c1s4 :=
    Step.release c1s3 0 (by decide) rfl rfl
  have htr : Relation.ReflTransGen (Step env0 collab0) (initCState 1) c1s4 :=
    Relation.ReflTransGen.head t1 (Relation.ReflTransGen.head t2
      (Relation.ReflTransGen.head t3 (Relation.ReflTransGen.head t4
        Relation.ReflTransGen.refl)))
  exact handler_construction_exactly_once env0 collab0 1 rfl rfl rfl rfl rfl
    (by decide) c1s4 htr
    (by
      intro i hi
      have hi0 : i = 0 := Nat.lt_one_iff.mp hi
      subst hi0
      rfl)

/-- Module state in which the agent is built and the flag set. -/
def readyState0 : GState := { agent := some agent0, initialized := true }

/-- Fresh module state: no agent, flag unset. -/
def freshState0 : GState := { agent := none, initialized := false }

/-- C4 counterexample: with the state already Ready, a `handler`
invocation still acquires the init lock before dispatching — it does not
proceed to dispatch without acquiring the lock as the claim states. -/
theorem handler_ready_acquires_lock_cex :
    Event.lockAcquired ∈
      (handler (fun _ _ => (0 : Nat)) env0 collab0 readyState0 (0 : Nat)).events := by
  decide

/-- C4 (amended): `handler` is single-checked, not double-checked: it
acquires the lock unconditionally and only then checks the flag (the
trace always starts with the acquisition followed by the flag check), and
an invocation that begins when the state is already Ready acquires and
releases the lock and only then dispatches. -/
theorem handler_single_checked_locking {M R : Type} (arun : Agent → M → R)
    (env : Env) (c : Collab) (st : GState) (messages : M) :
    ((handler arun env c st messages).events.take 2
        = [Event.lockAcquired, Event.flagChecked st.initialized]) ∧
    (st.initialized = true →
      (handler arun env c st messages).events
        = [Event.lockAcquired, Event.flagChecked true, Event.lockReleased,
           Event.runAgentCalled]) := by
  by_cases hst : st.initialized = true
  · simp [handler, hst]
  · have hst2 : st.initialized = false := by simpa using hst
    refine ⟨?_, fun h => absurd h hst⟩
    cases hini : initialize_agent env c with
    | error e => simp [handler, hst2, hini]
    | ok a => simp [handler, hst2, hini]

theorem handler_single_checked_locking_witness :
    ((handler (fun _ _ => (0 : Nat)) env0 collab0 readyState0 (0 : Nat)).events.take 2
        = [Event.lockAcquired, Event.flagChecked true]) ∧
    ((handler (fun _ _ => (0 : Nat)) env0 collab0 readyState0 (0 : Nat)).events
        = [Event.lockAcquired, Event.flagChecked true, Event.lockReleased,
           Event.runAgentCalled]) :=
  ⟨(handler_single_checked_locking (fun _ _ => (0 : Nat)) env0 collab0 readyState0 0).1,
   (handler_single_checked_locking (fun _ _ => (0 : Nat)) env0 collab0 readyState0 0).2 rfl⟩

theorem setup_tools_eval (m exa fck : Option String) (env : Env) (c : Collab)
    (hexa : truthy exa = true) (hce : c.exaFails = none) :
    _setup_tools m exa fck env c = .ok
      ([Tool.exaTools (exa.getD "")]
        ++ (if enableFirecrawl env && truthy fck then
              match c.firecrawlFails with
              | some _ => []
              | none => [Tool.firecrawlTools (fck.getD "") true true]
            else [])
        ++ (if truthy m then
              match c.mem0Fails with
              | some _ => []
              | none => [Tool.mem0Tools (m.getD "")]
            else [])) := by
  cases hfb : (enableFirecrawl env && truthy fck) <;> cases hcf : c.firecrawlFails <;>
    cases hm : truthy m <;> cases hcm : c.mem0Fails <;>
    simp [_setup_tools, hexa, hce, hfb, hcf, hm, hcm]

/-- C6: the Scrape capability appears in a built tool list only when the
feature flag is enabled, its credential is truthy and its constructor
succeeds; and when the Firecrawl constructor throws, `_setup_tools` still
succeeds with a list containing Search (and Memory when configured and
its constructor succeeds) but no Scrape tool. -/
theorem setup_tools_scrape_fail_soft (m exa fck : Option String)
    (env : Env) (c : Collab)
    (hexa : truthy exa = true) (hce : c.exaFails = none) :
    (∀ ts k b1 b2, _setup_tools m exa fck env c = .ok ts →
      Tool.firecrawlTools k b1 b2 ∈ ts →
      enableFirecrawl env = true ∧ truthy fck = true ∧ c.firecrawlFails = none) ∧
    (∀ e, c.firecrawlFails = some e →
      ∃ ts, _setup_tools m exa fck env c = .ok ts ∧
        Tool.exaTools (exa.getD "") ∈ ts ∧
        (∀ k b1 b2, Tool.firecrawlTools k b1 b2 ∉ ts) ∧
        (truthy m = true → c.mem0Fails = none → Tool.mem0Tools (m.getD "") ∈ ts)) := by
  have heval := setup_tools_eval m exa fck env c hexa hce
  constructor
  · intro ts k b1 b2 hok hmem
    rw [heval] at hok
    simp only [Except.ok.injEq] at hok
    subst hok
    cases hfb : (enableFirecrawl env && truthy fck) <;> cases hcf : c.firecrawlFails <;>
      cases hm : truthy m <;> cases hcm : c.mem0Fails <;>
      simp [hfb, hcf, hm, hcm] at hmem <;>
      (rw [Bool.and_eq_true] at hfb; exact ⟨hfb.1, hfb.2, rfl⟩)
  · intro e hcf
    refine ⟨_, heval, ?_, ?_, ?_⟩
    · simp
    · intro k b1 b2
      cases hfb : (enableFirecrawl env && truthy fck) <;> cases hm : truthy m <;>
        cases hcm : c.mem0Fails <;> simp [hfb, hm, hcm, hcf]
    · intro hm hcm
      cases hfb : (enableFirecrawl env && truthy fck) <;> simp [hfb, hcf, hm, hcm]

/-- C7: every successful `_setup_tools` run returns a list ordered Search
first, then Scrape when present, then Memory when present; and when all
three are built the list is exactly Search, Scrape, Memory in that order. -/
theorem setup_tools_ordering (m exa fck : Option String) (env : Env) (c : Collab)
    (ts : List Tool) (h : _setup_tools m exa fck env c = .ok ts) :
    wellOrderedTools ts = true ∧
    (enableFirecrawl env = true → truthy fck = true → c.firecrawlFails = none →
      truthy m = true → c.mem0Fails = none →
      ts = [Tool.exaTools (exa.getD ""), Tool.firecrawlTools (fck.getD "") true true,
            Tool.mem0Tools (m.getD "")]) := by
  cases hexa : truthy exa with
  | false => simp [_setup_tools, hexa] at h
  | true =>
    cases hce : c.exaFails with
    | some e => simp [_setup_tools, hexa, hce] at h
    | none =>
      rw [setup_tools_eval m exa fck env c hexa hce] at h
      simp only [Except.ok.injEq] at h
      subst h
      constructor
      · cases hfb : (enableFirecrawl env && truthy fck) <;> cases hcf : c.firecrawlFails <;>
          cases hm : truthy m <;> cases hcm : c.mem0Fails <;>
          simp [hfb, hcf, hm, hcm, wellOrderedTools, scrapeMemTail]
      · intro h1 h2 h3 h4 h5
        simp [h1, h2, h3, h4, h5]

/-- Environment with the LLM credential unset and the search credential
present. -/
def envNoOr : Env :=
  { openrouter_api_key := none, mem0_api_key := none,
    exa_api_key := some "exa-key", firecrawl_api_key := none,
    model_name := none, enable_firecrawl := none }

/-- Environment with the search credential unset and the LLM credential
present. -/
def envNoExa : Env :=
  { openrouter_api_key := some "or-key", mem0_api_key := none,
    exa_api_key := none, firecrawl_api_key := none,
    model_name := none, enable_firecrawl := none }

/-- Environment with the LLM credential set to the empty string. -/
def envEmptyOr : Env :=
  { openrouter_api_key := some "", mem0_api_key := none,
    exa_api_key := some "exa-key", firecrawl_api_key := none,
    model_name := none, enable_firecrawl := none }

/-- Environment with the search credential set to the empty string. -/
def envEmptyExa : Env :=
  { openrouter_api_key := some "or-key", mem0_api_key := none,
    exa_api_key := some "", firecrawl_api_key := none,
    model_name := none, enable_firecrawl := none }

/-- Collaborator behaviour in which only the Firecrawl constructor throws. -/
def collabFc : Collab :=
  { modelFails := none, exaFails := none,
    firecrawlFails := some (.otherError "boom"), mem0Fails := none,
    agentFails := none }

/-- C10: a credential set to the empty string behaves exactly like an
absent credential: an empty LLM or search key fails initialization with
`APIKeyError`, and an empty Firecrawl or Mem0 key makes `_setup_tools`
behave identically to the key being unset (all checks are truthiness
tests). -/
theorem empty_credential_treated_as_absent (env : Env) (c : Collab)
    (m exa : Option String) :
    (env.openrouter_api_key = some "" →
      isAPIKeyErrorResult (initialize_agent env c) = true) ∧
    (env.exa_api_key = some "" →
      isAPIKeyErrorResult (initialize_agent env c) = true) ∧
    (_setup_tools m exa (some "") env c = _setup_tools m exa none env c) ∧
    (_setup_tools (some "") exa none env c = _setup_tools none exa none env c) := by
  refine ⟨?_, ?_, ?_, ?_⟩
  · intro h
    have hor : truthy env.openrouter_api_key = false := by rw [h]; decide
    rw [init_err_no_openrouter env c hor]
    rfl
  · intro h
    have hexa : truthy env.exa_api_key = false := by rw [h]; decide
    obtain ⟨msg, hmsg⟩ := init_apikey_err_of_no_exa env c hexa
    rw [hmsg]
    rfl
  · simp [_setup_tools, truthy]
  · simp [_setup_tools, truthy]

theorem empty_credential_treated_as_absent_witness :
    isAPIKeyErrorResult (initialize_agent envEmptyOr collab0) = true ∧
    isAPIKeyErrorResult (initialize_agent envEmptyExa collab0) = true ∧
    _setup_tools none (some "exa-key") (some "") envEmptyOr collab0
      = _setup_tools none (some "exa-key") none envEmptyOr collab0 :=
  ⟨(empty_credential_treated_as_absent envEmptyOr collab0 none none).1 rfl,
   (empty_credential_treated_as_absent envEmptyExa collab0 none none).2.1 rfl,
   (empty_credential_treated_as_absent envEmptyOr collab0 none (some "exa-key")).2.2.1⟩

theorem handler_fails_without_llm_credential_witness :
    (handler (fun _ _ => (0 : Nat)) envNoOr collab0 freshState0 (0 : Nat)).result
        = .error (.apiKeyError openrouterKeyMsg) ∧
    (handler (fun _ _ => (0 : Nat)) envNoOr collab0 freshState0 (0 : Nat)).aruns = [] ∧
    (handler (fun _ _ => (0 : Nat)) envNoOr collab0 freshState0
        (0 : Nat)).state.initialized = false :=
  handler_fails_without_llm_credential (fun _ _ => (0 : Nat)) envNoOr collab0
    freshState0 0 rfl rfl

theorem handler_propagates_construction_errors_witness :
    (handler (fun _ _ => (0 : Nat)) envNoOr collab0 freshState0 (0 : Nat)).result
        = .error (.apiKeyError openrouterKeyMsg) ∧
    (handler (fun _ _ => (0 : Nat)) envNoOr collab0 freshState0 (0 : Nat)).state
        = freshState0 ∧
    Event.initCalled ∈
      (handler (fun _ _ => (0 : Nat)) env0 collab0
        (handler (fun _ _ => (0 : Nat)) envNoOr collab0 freshState0 (0 : Nat)).state
        (0 : Nat)).events :=
  ⟨(handler_propagates_construction_errors (fun _ _ => (0 : Nat)) envNoOr collab0
      freshState0 0 (.apiKeyError openrouterKeyMsg) rfl (by decide)).1,
   (handler_propagates_construction_errors (fun _ _ => (0 : Nat)) envNoOr collab0
      freshState0 0 (.apiKeyError openrouterKeyMsg) rfl (by decide)).2.1,
   (handler_propagates_construction_errors (fun _ _ => (0 : Nat)) envNoOr collab0
      freshState0 0 (.apiKeyError openrouterKeyMsg) rfl (by decide)).2.2 env0 collab0 0⟩

theorem init_fails_without_search_credential_witness :
    ∃ m, initialize_agent envNoExa collab0 = .error (.apiKeyError m) :=
  init_fails_without_search_credential envNoExa collab0 rfl

theorem run_agent_identity_witness :
    run_agent (fun _ _ => (42 : Nat)) readyState0 (7 : Nat)
      = (Except.ok 42, [(agent0, 7)]) :=
  run_agent_identity (fun _ _ => (42 : Nat)) readyState0 agent0 7 rfl

theorem run_agent_not_ready_witness :
    run_agent (fun _ _ => (42 : Nat)) freshState0 (7 : Nat)
      = (Except.error (PyError.runtimeError "Agent not initialized"), []) :=
  run_agent_not_ready (fun _ _ => (42 : Nat)) freshState0 7 rfl

theorem setup_tools_scrape_fail_soft_witness :
    ∃ ts, _setup_tools (some "m0-key") (some "exa-key") (some "fc-key") env0 collabFc
        = .ok ts ∧
      Tool.exaTools ((some "exa-key").getD "") ∈ ts ∧
      (∀ k b1 b2, Tool.firecrawlTools k b1 b2 ∉ ts) ∧
      (truthy (some "m0-key") = true → collabFc.mem0Fails = none →
        Tool.mem0Tools ((some "m0-key").getD "") ∈ ts) :=
  (setup_tools_scrape_fail_soft (some "m0-key") (some "exa-key") (some "fc-key")
    env0 collabFc rfl rfl).2 (.otherError "boom") rfl

theorem setup_tools_ordering_witness :
    wellOrderedTools [Tool.exaTools ((some "exa-key").getD ""),
        Tool.firecrawlTools ((some "fc-key").getD "") true true,
        Tool.mem0Tools ((some "m0-key").getD "")] = true ∧
    (enableFirecrawl env0 = true → truthy (some "fc-key") = true →
      collab0.firecrawlFails = none → truthy (some "m0-key") = true →
      collab0.mem0Fails = none →
      [Tool.exaTools ((some "exa-key").getD ""),
        Tool.firecrawlTools ((some "fc-key").getD "") true true,
        Tool.mem0Tools ((some "m0-key").getD "")]
        = [Tool.exaTools ((some "exa-key").getD ""),
           Tool.firecrawlTools ((some "fc-key").getD "") true true,
           Tool.mem0Tools ((some "m0-key").getD "")]) :=
  setup_tools_ordering (some "m0-key") (some "exa-key") (some "fc-key") env0 collab0
    [Tool.exaTools ((some "exa-key").getD ""),
     Tool.firecrawlTools ((some "fc-key").getD "") true true,
     Tool.mem0Tools ((some "m0-key").getD "")] (by decide)
